import Mathlib

/-!
Shallow embedding of the recru-search Solana program (Rust/Anchor) and proofs
about its entity lifecycle and reward-ledger operations.

The repository contains two drifted layouts of the same program:
  * a modular layout under `src/state/*.rs`, `src/instructions/*.rs`,
    `src/contexts.rs`, `src/error.rs` (embedded in namespace `RS` below); the
    instruction contexts in `contexts.rs` bind the `crate::state::*` account
    types, so the modular handlers operate on the `RS` data model;
  * an older monolithic layout in `src/lib.rs`, `src/admin.rs`, `src/wallet.rs`
    (embedded in namespace `Mono` below).

Conventions of the embedding:
  * `u32` / `u64` fields are `Nat` with explicit `% 2^32` / `% 2^64` bounds;
    `checked_add` / `checked_sub` return `Option Nat`, `.ok_or(err)?` becomes
    `ok_or`; release-mode unchecked `+` / `-` on machine integers wraps and is
    embedded as modular arithmetic.
  * Anchor instructions abort the whole transaction on any error, so a handler
    is a pure function returning `Except Err σ`: on `.error` no account state
    is persisted.
  * `Pubkey` is opaque account identity, modelled as `Nat`.
  * `Clock::get()?.unix_timestamp` is an explicit `now : Int` parameter.
  * `f32` analytics fields (floating point) and the external CPI calls (token
    transfer / mint / burn / metadata creation) are outside the embedding; the
    CPIs only touch external accounts, never the fields reasoned about here.
-/

namespace RecruSearch

abbrev Pubkey := Nat

def U32_MOD : Nat := 2 ^ 32
def U64_MOD : Nat := 2 ^ 64

/-- `u32::checked_add` -/
def u32_checked_add (a b : Nat) : Option Nat :=
  if a + b < U32_MOD then some (a + b) else none

/-- `u32::checked_sub` -/
def u32_checked_sub (a b : Nat) : Option Nat :=
  if b ≤ a then some (a - b) else none

/-- `u64::checked_add` -/
def u64_checked_add (a b : Nat) : Option Nat :=
  if a + b < U64_MOD then some (a + b) else none

/-- Release-mode `+` on `u32`: wraps modulo `2^32`. -/
def u32_wrap_add (a b : Nat) : Nat := (a + b) % U32_MOD

/-- Release-mode `-` on `u32`: wraps modulo `2^32` (arguments < `2^32`). -/
def u32_wrap_sub (a b : Nat) : Nat := (a + U32_MOD - b % U32_MOD) % U32_MOD

/-- Release-mode `+` on `u64`: wraps modulo `2^64`. -/
def u64_wrap_add (a b : Nat) : Nat := (a + b) % U64_MOD

/-- Union of the program's error enums (`src/error.rs` `RecruSearchError`,
plus the variants of the monolithic `AdminError` used by the embedded code). -/
inductive Err where
  | StudyInactive
  | StudyFull
  | UnauthorizedResearcher
  | UnauthorizedAdmin
  | InvalidTokenAmount
  | ParticipantNotEligible
  | StudyNotFound
  | NotVerified
  | InactiveWallet
  | RewardOverflow
  | InvalidParticipantStatus
  | InvalidRewardAmount
  | MaxParticipantsExceeded
  | InvalidStudyParameters
  | InvalidInstitutionName
  | InvalidCredentials
  | DuplicateConsent
  | NoActiveConsent
  | InvalidConsentStatus
  | InvalidStatusTransition
  | AlreadyVerified
  | UnauthorizedAccess
  | WalletNotInitialized
  | WalletAlreadyInitialized
  | InvalidProgress
  | InvalidRating
  | FeedbackTooLong
  deriving DecidableEq, Repr

/-- `Option::ok_or` followed by `?`: lift an `Option` into `Except`. -/
def ok_or {α : Type} (o : Option α) (e : Err) : Except Err α :=
  match o with
  | some a => Except.ok a
  | none => Except.error e

namespace RS

/-- `StudyStatus` of the modular layout (`src/state/admin.rs`). -/
inductive StudyStatus where
  | Active
  | Inactive
  | Completed
  | Suspended
  deriving DecidableEq, Repr

/-- `ParticipantAction` (`src/state/admin.rs`). -/
inductive ParticipantAction where
  | Suspend
  | Unsuspend
  | Ban
  deriving DecidableEq, Repr

/-- `StudyType` (`src/state/study.rs`). -/
inductive StudyType where
  | Survey
  | Interview
  | Clinical
  | Observational
  | Experimental
  deriving DecidableEq, Repr

/-- `StudyAnalytics` (`src/state/study.rs`); the `f32` fields
`completion_rate` and `average_rating` are outside the embedding. -/
structure StudyAnalytics where
  total_participants : Nat
  deriving DecidableEq, Repr

/-- `Study` account (`src/state/study.rs`). -/
structure Study where
  authority : Pubkey
  status : StudyStatus
  title : String
  description : String
  criteria_hash : String
  reward_amount : Nat
  max_participants : Nat
  current_participants : Nat
  completed_participants : Nat
  is_active : Bool
  created_at : Int
  study_type : StudyType
  analytics : StudyAnalytics
  deriving DecidableEq, Repr

/-- `Study::create` (`src/state/study.rs`): field assignment on the
zero-initialized account; note it sets `is_active` but not `status`. -/
def Study.create (self : Study) (authority : Pubkey)
    (title description criteria_hash : String)
    (reward_amount max_participants : Nat) (study_type : StudyType)
    (now : Int) : Except Err Study :=
  Except.ok { self with
    authority := authority
    title := title
    description := description
    criteria_hash := criteria_hash
    reward_amount := reward_amount
    max_participants := max_participants
    current_participants := 0
    is_active := true
    created_at := now
    completed_participants := 0
    analytics := { total_participants := 0 }
    study_type := study_type }

/-- `Study::can_accept_participants` (`src/state/study.rs`): checks the
`is_active` flag (not the `status` enum) and capacity. -/
def Study.can_accept_participants (self : Study) : Except Err Unit := do
  if self.is_active then pure () else throw Err.StudyInactive
  if self.current_participants < self.max_participants then pure ()
  else throw Err.StudyFull

/-- `Study::add_participant` (`src/state/study.rs`). -/
def Study.add_participant (self : Study) : Except Err Study := do
  self.can_accept_participants
  let c ← ok_or (u32_checked_add self.current_participants 1)
    Err.MaxParticipantsExceeded
  pure { self with current_participants := c }

/-- `Study::complete_participant` (`src/state/study.rs`): unconditional
checked increment of `completed_participants`. -/
def Study.complete_participant (self : Study) : Except Err Study := do
  let c ← ok_or (u32_checked_add self.completed_participants 1)
    Err.InvalidParticipantStatus
  pure { self with completed_participants := c }

/-- `Study::increment_consent` (`src/state/study.rs`): a no-op `Ok(())`. -/
def Study.increment_consent (self : Study) : Except Err Study :=
  Except.ok self

/-- `Study::decrement_consent` (`src/state/study.rs`): a no-op `Ok(())`. -/
def Study.decrement_consent (self : Study) : Except Err Study :=
  Except.ok self

/-- `CompletedStudy` record (`src/state/participant.rs`). -/
structure CompletedStudy where
  study_id : Pubkey
  completion_date : Int
  reward_amount : Nat
  rating : Option Nat
  feedback : Option String
  deriving DecidableEq, Repr

/-- `ActiveStudy` record (`src/state/participant.rs`). -/
structure ActiveStudy where
  study_id : Pubkey
  start_date : Int
  progress : Nat
  last_update : Int
  deriving DecidableEq, Repr

/-- `RewardRecord` (`src/state/participant.rs`). -/
structure RewardRecord where
  study_id : Pubkey
  amount : Nat
  timestamp : Int
  transaction_id : String
  deriving DecidableEq, Repr

/-- `ParticipantProfile` (`src/state/participant.rs`). -/
structure ParticipantProfile where
  age_group : String
  gender : String
  region : String
  interests : List String
  is_anonymous : Bool
  completed_studies : List CompletedStudy
  active_studies : List ActiveStudy
  reward_history : List RewardRecord
  reputation_score : Nat
  deriving DecidableEq, Repr

/-- `Participant` account (`src/state/participant.rs`). -/
structure Participant where
  authority : Pubkey
  profile : ParticipantProfile
  eligibility_proof : String
  registered_at : Int
  suspended : Bool
  banned : Bool
  active_studies : Nat
  completed_studies : Nat
  has_active_consent : Bool
  consent_issued_at : Int
  consent_revoked_at : Option Int
  wallet : Option Pubkey
  reputation_score : Nat
  last_activity : Int
  deriving DecidableEq, Repr

/-- `Participant::increment_active_studies` (`src/state/participant.rs`). -/
def Participant.increment_active_studies (self : Participant) :
    Except Err Participant := do
  let n ← ok_or (u32_checked_add self.active_studies 1)
    Err.InvalidParticipantStatus
  pure { self with active_studies := n }

/-- `Participant::decrement_active_studies` (`src/state/participant.rs`). -/
def Participant.decrement_active_studies (self : Participant) :
    Except Err Participant := do
  let n ← ok_or (u32_checked_sub self.active_studies 1)
    Err.InvalidParticipantStatus
  pure { self with active_studies := n }

/-- `Participant::increment_completed_studies` (`src/state/participant.rs`). -/
def Participant.increment_completed_studies (self : Participant) :
    Except Err Participant := do
  let n ← ok_or (u32_checked_add self.completed_studies 1)
    Err.InvalidParticipantStatus
  pure { self with completed_studies := n }

/-- `Participant::update_consent_status` (`src/state/participant.rs`). -/
def Participant.update_consent_status (self : Participant) (has_consent : Bool)
    (now : Int) : Except Err Participant :=
  if has_consent then
    Except.ok { self with
      has_active_consent := has_consent
      consent_issued_at := now
      consent_revoked_at := none }
  else
    Except.ok { self with
      has_active_consent := has_consent
      consent_revoked_at := some now }

/-- `ParticipantProfile::is_eligible_for_study` (`src/state/participant.rs`,
lines 116-126): the study argument is unused (`_study`); the `criteria`
array is `[true, reputation_score >= 10]` with a hard-coded minimum of 10. -/
def ParticipantProfile.is_eligible_for_study (self : ParticipantProfile)
    (_study : Study) : Bool :=
  let criteria := [true, decide (10 ≤ self.reputation_score)]
  criteria.all (fun check => check == true)

/-- `Researcher` account (`src/state/researcher.rs`). -/
structure Researcher where
  authority : Pubkey
  institution : String
  credentials_hash : String
  is_verified : Bool
  registered_at : Int
  studies_created : Nat
  active_studies : Nat
  total_participants : Nat
  reputation_score : Nat
  deriving DecidableEq, Repr

/-- `Researcher::create` (`src/state/researcher.rs`, lines 44-62): validates
`institution` first, then `credentials_hash`, then assigns fields. -/
def Researcher.create (self : Researcher) (authority : Pubkey)
    (institution credentials_hash : String) (now : Int) :
    Except Err Researcher := do
  if institution.length > 0 then pure ()
  else throw Err.InvalidInstitutionName
  if credentials_hash.length > 0 then pure ()
  else throw Err.InvalidCredentials
  pure { self with
    authority := authority
    institution := institution
    credentials_hash := credentials_hash
    is_verified := false
    registered_at := now
    studies_created := 0
    active_studies := 0
    total_participants := 0
    reputation_score := 0 }

/-- `Researcher::update_reputation_score` (`src/state/researcher.rs`). -/
def Researcher.update_reputation_score (self : Researcher) (score : Nat) :
    Except Err Researcher :=
  Except.ok { self with reputation_score := score }

/-- `Researcher::update_active_studies` (`src/state/researcher.rs`, lines
68-81): requires `is_verified`; the checked add/sub on `active_studies` is
followed by a reputation update computed with UNCHECKED `u32` addition
`self.reputation_score + delta.abs() * 10`, which wraps in release mode. -/
def Researcher.update_active_studies (self : Researcher) (delta : Int) :
    Except Err Researcher := do
  if self.is_verified then pure () else throw Err.NotVerified
  let self ←
    if delta > 0 then do
      let n ← ok_or (u32_checked_add self.active_studies delta.toNat)
        Err.InvalidStudyParameters
      pure { self with active_studies := n }
    else do
      let n ← ok_or (u32_checked_sub self.active_studies (-delta).toNat)
        Err.InvalidStudyParameters
      pure { self with active_studies := n }
  self.update_reputation_score
    (u32_wrap_add self.reputation_score (delta.natAbs * 10))

/-- `Researcher::update_total_participants` (`src/state/researcher.rs`). -/
def Researcher.update_total_participants (self : Researcher) (delta : Int) :
    Except Err Researcher := do
  if delta > 0 then do
    let n ← ok_or (u32_checked_add self.total_participants delta.toNat)
      Err.InvalidStudyParameters
    pure { self with total_participants := n }
  else do
    let n ← ok_or (u32_checked_sub self.total_participants (-delta).toNat)
      Err.InvalidStudyParameters
    pure { self with total_participants := n }

/-- `Consent` account (`src/state/consent.rs`). -/
structure Consent where
  authority : Pubkey
  study_id : Pubkey
  version : String
  consent_hash : String
  issued_at : Int
  revoked_at : Option Int
  is_active : Bool
  mint : Pubkey
  bump : Nat
  total_issued : Nat
  total_revoked : Nat
  consent_versions : List String
  deriving DecidableEq, Repr

/-- `Consent::is_valid` (`src/state/consent.rs`). -/
def Consent.is_valid (self : Consent) : Bool :=
  self.is_active && self.revoked_at.isNone

/-- `ParticipantWallet` account of the modular layout
(`src/state/wallet.rs`): holds only a cumulative `total_rewards`,
no per-reward entry list. -/
structure ParticipantWallet where
  participant : Pubkey
  phantom_public_key : Pubkey
  bump : Nat
  created_at : Int
  last_activity : Int
  total_rewards : Nat
  last_reward_at : Int
  is_active : Bool
  metadata_uri : Option String
  deriving DecidableEq, Repr

/-- `ParticipantWallet::add_reward` (`src/state/wallet.rs`, lines 33-43):
requires the wallet active and `amount > 0`, then `checked_add` on the
`u64` total with `RewardOverflow` on overflow. -/
def ParticipantWallet.add_reward (self : ParticipantWallet) (amount : Nat)
    (now : Int) : Except Err ParticipantWallet := do
  if self.is_active then pure () else throw Err.InactiveWallet
  if amount > 0 then pure () else throw Err.InvalidTokenAmount
  let t ← ok_or (u64_checked_add self.total_rewards amount) Err.RewardOverflow
  pure { self with total_rewards := t, last_reward_at := now,
                   last_activity := now }

/-- `Admin` account (`src/state/admin.rs`); the `dashboard` aggregate
(`f32` metrics) is outside the embedding. -/
structure Admin where
  authority : Pubkey
  verified_researchers : Nat
  pending_verifications : Nat
  last_updated : Int
  study_status : StudyStatus
  participant_action : ParticipantAction
  deriving DecidableEq, Repr

/-- `Admin::is_authorized` (`src/state/admin.rs`). -/
def Admin.is_authorized (self : Admin) (authority : Pubkey) : Bool :=
  self.authority == authority

/-- `join_study` instruction handler (`src/instructions/study.rs`, lines
6-13): capacity check and two checked increments; no check whatsoever on
the participant account. -/
def join_study (study : Study) (participant : Participant) :
    Except Err (Study × Participant) := do
  study.can_accept_participants
  let study ← study.add_participant
  let participant ← participant.increment_active_studies
  pure (study, participant)

/-- Study component of the `join_study` outcome. -/
def join_study_outcome (study : Study) (participant : Participant) :
    Except Err Study :=
  (join_study study participant).map Prod.fst

/-- `complete_study` instruction handler (`src/instructions/study.rs`, lines
37-45): increments `study.completed_participants`,
`participant.completed_studies` and `researcher.total_participants`; it
never reads or decrements `participant.active_studies` and performs no
enrollment check. -/
def complete_study (study : Study) (participant : Participant)
    (researcher : Researcher) :
    Except Err (Study × Participant × Researcher) := do
  let study ← study.complete_participant
  let participant ← participant.increment_completed_studies
  let researcher ← researcher.update_total_participants 1
  pure (study, participant, researcher)

/-- `register_researcher` instruction handler
(`src/instructions/researcher.rs`, lines 4-12): plain field assignment;
it does NOT call `Researcher::create` and performs no validation of
`institution` or `credentials_hash`. -/
def register_researcher (researcher : Researcher) (authority : Pubkey)
    (institution credentials_hash : String) (now : Int) :
    Except Err Researcher :=
  Except.ok { researcher with
    authority := authority
    institution := institution
    credentials_hash := credentials_hash
    is_verified := false
    registered_at := now }

/-- `update_study_status` admin instruction handler
(`src/instructions/admin.rs`, lines 29-35): after the admin-authority check
it assigns the requested status UNCONDITIONALLY — no transition-table
check, no `InvalidStatusTransition` path. -/
def update_study_status (admin : Admin) (study : Study) (authority : Pubkey)
    (status : StudyStatus) : Except Err Study := do
  if admin.authority == authority then pure ()
  else throw Err.UnauthorizedAdmin
  pure { study with status := status }

/-- `issue_consent_nft` instruction handler (`src/instructions/consent.rs`,
lines 29-121): eligibility check first, then the duplicate-consent check,
then the state mutations; the metadata/mint CPIs touch only external
accounts. `consent.total_issued += 1` is unchecked `u64` arithmetic. -/
def issue_consent_nft (consent : Consent) (study : Study)
    (participant : Participant) (_consent_version _consent_hash : String)
    (now : Int) : Except Err (Consent × Study × Participant) := do
  if participant.profile.is_eligible_for_study study then pure ()
  else throw Err.ParticipantNotEligible
  if participant.has_active_consent then throw Err.DuplicateConsent
  else pure ()
  let participant ← participant.update_consent_status true now
  let study ← study.increment_consent
  let consent :=
    { consent with total_issued := u64_wrap_add consent.total_issued 1 }
  pure (consent, study, participant)

/-- `revoke_consent` instruction handler (`src/instructions/consent.rs`,
lines 123-157): requires an active consent, resets it and bumps the revoke
counter; the burn CPI touches only external accounts. -/
def revoke_consent (consent : Consent) (participant : Participant)
    (now : Int) : Except Err (Consent × Participant) := do
  if participant.has_active_consent then pure ()
  else throw Err.NoActiveConsent
  let participant ← participant.update_consent_status false now
  let consent :=
    { consent with total_revoked := u64_wrap_add consent.total_revoked 1 }
  pure (consent, participant)

end RS

namespace Mono

/-- `StudyStatus` of the monolithic layout (`src/lib.rs`): seven variants. -/
inductive StudyStatus where
  | Draft
  | PendingReview
  | Active
  | Inactive
  | Completed
  | Suspended
  | Rejected
  deriving DecidableEq, Repr

/-- `Study` account of the monolithic layout (`src/lib.rs`, lines 192-230);
the `f32` analytics are outside the embedding. -/
structure Study where
  authority : Pubkey
  title : String
  description : String
  criteria_hash : String
  reward_amount : Nat
  max_participants : Nat
  current_participants : Nat
  status : StudyStatus
  created_at : Int
  updated_at : Int
  completed_participants : Nat
  category : String
  completed_at : Option Int
  suspended_at : Option Int
  suspension_reason : Option String
  rejected_at : Option Int
  rejection_reason : Option String
  deriving DecidableEq, Repr

/-- `Study::update_status` (`src/lib.rs`, lines 264-278): the hand-written
legality match; any pair outside the table fails `InvalidStatusTransition`
and, the error propagating, leaves the account untouched. -/
def Study.update_status (self : Study) (status : StudyStatus) (now : Int) :
    Except Err Study :=
  match self.status, status with
  | StudyStatus.Draft, StudyStatus.PendingReview =>
      Except.ok { self with status := status, updated_at := now }
  | StudyStatus.PendingReview, StudyStatus.Active =>
      Except.ok { self with status := status, updated_at := now }
  | StudyStatus.Active, StudyStatus.Inactive =>
      Except.ok { self with status := status, updated_at := now }
  | StudyStatus.Active, StudyStatus.Completed =>
      Except.ok { self with status := status, updated_at := now }
  | StudyStatus.Active, StudyStatus.Suspended =>
      Except.ok { self with status := status, updated_at := now }
  | StudyStatus.Suspended, StudyStatus.Active =>
      Except.ok { self with status := status, updated_at := now }
  | _, _ => Except.error Err.InvalidStatusTransition

/-- The legal-transition table of `Study::update_status`, as a Boolean
relation (the six arms of the source match). -/
def legal_transition : StudyStatus → StudyStatus → Bool
  | StudyStatus.Draft, StudyStatus.PendingReview => true
  | StudyStatus.PendingReview, StudyStatus.Active => true
  | StudyStatus.Active, StudyStatus.Inactive => true
  | StudyStatus.Active, StudyStatus.Completed => true
  | StudyStatus.Active, StudyStatus.Suspended => true
  | StudyStatus.Suspended, StudyStatus.Active => true
  | _, _ => false

/-- `Researcher` of the monolithic layout (`src/researcher.rs`, lines
15-34). `src/admin.rs` additionally reads and writes a
`credentials_verified` flag on this account (the struct declaration omits
it — a drift in the source); it is included here so the admin workflow can
be embedded. -/
structure Researcher where
  authority : Pubkey
  institution : String
  credentials_hash : String
  is_verified : Bool
  credentials_verified : Bool
  registered_at : Int
  studies_created : Nat
  active_studies : Nat
  total_participants : Nat
  reputation_score : Nat
  deriving DecidableEq, Repr

/-- `Admin` of the monolithic layout (`src/admin.rs`, lines 31-40); the
dashboard aggregate (`f32` metrics) is outside the embedding and untouched
by `verify_researcher`. -/
structure Admin where
  authority : Pubkey
  verified_researchers : Nat
  pending_verifications : Nat
  last_updated : Int
  deriving DecidableEq, Repr

/-- `Admin::verify_researcher` (`src/admin.rs`, lines 102-111): requires the
researcher not already verified; then `self.verified_researchers += 1` and
`self.pending_verifications -= 1` with UNCHECKED `u32` arithmetic, which
wraps in release mode — at `pending_verifications = 0` the decrement wraps
to `2^32 - 1` and the call still returns `Ok`. -/
def Admin.verify_researcher (self : Admin) (researcher : Researcher)
    (now : Int) : Except Err (Admin × Researcher) := do
  if researcher.credentials_verified == false then pure ()
  else throw Err.AlreadyVerified
  let researcher := { researcher with credentials_verified := true }
  let self := { self with
    verified_researchers := u32_wrap_add self.verified_researchers 1
    pending_verifications := u32_wrap_sub self.pending_verifications 1
    last_updated := now }
  pure (self, researcher)

/-- `Reward` entry (`src/wallet.rs`, lines 38-46). -/
structure Reward where
  study_id : Pubkey
  amount : Nat
  timestamp : Int
  deriving DecidableEq, Repr

/-- `TransactionStatus` (`src/wallet.rs`). -/
inductive TransactionStatus where
  | Pending
  | Completed
  | Failed
  deriving DecidableEq, Repr

/-- Wallet `Transaction` log entry (`src/wallet.rs`, lines 50-57). -/
structure Transaction where
  id : String
  status : TransactionStatus
  timestamp : Int
  deriving DecidableEq, Repr

/-- Model of the `format!`-built reward transaction id strings
(`src/wallet.rs`); the claims never inspect their contents. -/
def reward_tx_id (study_id : Pubkey) : String :=
  toString study_id

/-- `ParticipantWallet` of the monolithic layout (`src/wallet.rs`, lines
17-35): cumulative `total_earned` plus append-only `rewards` and
`transactions` lists. -/
structure ParticipantWallet where
  authority : Pubkey
  phantom_address : Pubkey
  main_token_account : Pubkey
  privacy_key_account : Pubkey
  anonymous_id : String
  rewards : List Reward
  transactions : List Transaction
  total_earned : Nat
  is_initialized : Bool
  last_activity : Int
  deriving DecidableEq, Repr

/-- `ParticipantWallet::add_reward` (`src/wallet.rs`, lines 181-206):
requires `amount > 0` and an initialized wallet; appends one `Reward`
entry, accumulates `total_earned` via `checked_add` (`RewardOverflow` on
overflow — the error aborts the transaction, so no partial mutation is
persisted), and appends a `Completed` transaction-log entry. -/
def ParticipantWallet.add_reward (self : ParticipantWallet)
    (study_id : Pubkey) (amount : Nat) (now : Int) :
    Except Err ParticipantWallet := do
  if amount > 0 then pure () else throw Err.InvalidRewardAmount
  if self.is_initialized then pure () else throw Err.WalletNotInitialized
  let entry : Reward := { study_id := study_id, amount := amount,
                          timestamp := now }
  let t ← ok_or (u64_checked_add self.total_earned amount) Err.RewardOverflow
  pure { self with
    rewards := self.rewards ++ [entry]
    total_earned := t
    last_activity := now
    transactions := self.transactions ++
      [{ id := reward_tx_id study_id, status := TransactionStatus.Completed,
         timestamp := now }] }

end Mono

namespace RS

/-- Study states reachable through the exposed study-lifecycle operations of
the modular layout: creation (`Study::create` on a fresh account), enrollment
(`join_study`), completion (`complete_study`) and the admin status update
(`update_study_status`), each applied atomically (an error persists
nothing). -/
inductive ReachableStudy : Study → Prop where
  | created (s0 : Study) (authority : Pubkey)
      (title description criteria_hash : String)
      (reward_amount max_participants : Nat) (study_type : StudyType)
      (now : Int) (s : Study) :
      Study.create s0 authority title description criteria_hash reward_amount
        max_participants study_type now = Except.ok s →
      ReachableStudy s
  | joined (s : Study) (p : Participant) (s' : Study) (p' : Participant) :
      ReachableStudy s → join_study s p = Except.ok (s', p') →
      ReachableStudy s'
  | completed (s : Study) (p : Participant) (r : Researcher) (s' : Study)
      (p' : Participant) (r' : Researcher) :
      ReachableStudy s → complete_study s p r = Except.ok (s', p', r') →
      ReachableStudy s'
  | status_updated (admin : Admin) (s : Study) (authority : Pubkey)
      (st : StudyStatus) (s' : Study) :
      ReachableStudy s → update_study_status admin s authority st =
        Except.ok s' →
      ReachableStudy s'

end RS

/-! Concrete fixture states used by witnesses and counterexamples. -/

/-- A fresh (zero-initialized) modular `Study` account pre-state. -/
def study0 : RS.Study :=
  { authority := 0, status := RS.StudyStatus.Active, title := "",
    description := "", criteria_hash := "", reward_amount := 0,
    max_participants := 0, current_participants := 0,
    completed_participants := 0, is_active := false, created_at := 0,
    study_type := RS.StudyType.Survey,
    analytics := { total_participants := 0 } }

/-- An empty modular participant profile. -/
def profile0 : RS.ParticipantProfile :=
  { age_group := "", gender := "", region := "", interests := [],
    is_anonymous := false, completed_studies := [], active_studies := [],
    reward_history := [], reputation_score := 0 }

/-- A fresh modular `Participant` account. -/
def participant0 : RS.Participant :=
  { authority := 2, profile := profile0, eligibility_proof := "",
    registered_at := 0, suspended := false, banned := false,
    active_studies := 0, completed_studies := 0, has_active_consent := false,
    consent_issued_at := 0, consent_revoked_at := none, wallet := none,
    reputation_score := 0, last_activity := 0 }

/-- A fresh modular `Researcher` account. -/
def researcher0 : RS.Researcher :=
  { authority := 3, institution := "", credentials_hash := "",
    is_verified := false, registered_at := 0, studies_created := 0,
    active_studies := 0, total_participants := 0, reputation_score := 0 }

/-- A fresh modular `Consent` account. -/
def consent0 : RS.Consent :=
  { authority := 1, study_id := 4, version := "", consent_hash := "",
    issued_at := 0, revoked_at := none, is_active := false, mint := 5,
    bump := 0, total_issued := 0, total_revoked := 0,
    consent_versions := [] }

/-- A modular `Admin` account whose authority is key `1`. -/
def admin0 : RS.Admin :=
  { authority := 1, verified_researchers := 0, pending_verifications := 0,
    last_updated := 0, study_status := RS.StudyStatus.Inactive,
    participant_action := RS.ParticipantAction.Unsuspend }

/-- An active, empty modular reward wallet. -/
def wallet0 : RS.ParticipantWallet :=
  { participant := 2, phantom_public_key := 6, bump := 0, created_at := 0,
    last_activity := 0, total_rewards := 0, last_reward_at := 0,
    is_active := true, metadata_uri := none }

/-- An initialized, empty monolithic reward wallet. -/
def mwallet0 : Mono.ParticipantWallet :=
  { authority := 2, phantom_address := 6, main_token_account := 7,
    privacy_key_account := 8, anonymous_id := "", rewards := [],
    transactions := [], total_earned := 0, is_initialized := true,
    last_activity := 0 }

/-- A monolithic `Study` in `Completed` status. -/
def mstudy0 : Mono.Study :=
  { authority := 3, title := "t", description := "d", criteria_hash := "c",
    reward_amount := 10, max_participants := 5, current_participants := 0,
    status := Mono.StudyStatus.Completed, created_at := 0, updated_at := 0,
    completed_participants := 0, category := "cat", completed_at := none,
    suspended_at := none, suspension_reason := none, rejected_at := none,
    rejection_reason := none }

/-- A monolithic `Admin` with no pending verifications. -/
def madmin0 : Mono.Admin :=
  { authority := 1, verified_researchers := 0, pending_verifications := 0,
    last_updated := 0 }

/-- An unverified monolithic `Researcher`. -/
def mresearcher0 : Mono.Researcher :=
  { authority := 3, institution := "MIT", credentials_hash := "abc",
    is_verified := false, credentials_verified := false, registered_at := 0,
    studies_created := 0, active_studies := 0, total_participants := 0,
    reputation_score := 0 }

/-- An accepting modular study: `is_active` set, capacity 2 free. -/
def studyAccepting : RS.Study :=
  { study0 with is_active := true, max_participants := 2 }

/-- The same accepting study carried into a non-`Active` status by the
unconditional admin status update. -/
def studySuspendedAccepting : RS.Study :=
  { studyAccepting with status := RS.StudyStatus.Suspended }

/-- The study produced by `Study::create` on `study0` with
authority 1, texts "t"/"d"/"c", reward 10, capacity 1, type Survey, time 0. -/
def studyCreated : RS.Study :=
  { authority := 1, status := RS.StudyStatus.Active, title := "t",
    description := "d", criteria_hash := "c", reward_amount := 10,
    max_participants := 1, current_participants := 0,
    completed_participants := 0, is_active := true, created_at := 0,
    study_type := RS.StudyType.Survey,
    analytics := { total_participants := 0 } }

/-- `studyCreated` after one successful enrollment. -/
def studyJoined : RS.Study := { studyCreated with current_participants := 1 }

/-- `studyJoined` after one completion. -/
def studyDone1 : RS.Study := { studyJoined with completed_participants := 1 }

/-- `studyJoined` after a second completion: `completed_participants = 2`
exceeds `current_participants = 1`. -/
def studyDone2 : RS.Study := { studyJoined with completed_participants := 2 }

/-- A participant whose `active_studies` counter sits at `u32::MAX`. -/
def pmax : RS.Participant :=
  { participant0 with active_studies := U32_MOD - 1 }

/-- A consented participant who also passes the reputation check. -/
def pCons : RS.Participant :=
  { participant0 with
    has_active_consent := true
    profile := { profile0 with reputation_score := 10 } }

/-- A consented participant who fails the reputation check. -/
def pConsBadRep : RS.Participant :=
  { participant0 with has_active_consent := true }

/-- A participant at the supposed hard cap: counter `active_studies = 3`,
three open enrollment records in the profile (one referencing study key 4),
reputation exactly at the hard-coded minimum 10. -/
def pCap : RS.Participant :=
  { participant0 with
    active_studies := 3
    profile := { profile0 with
      reputation_score := 10
      active_studies :=
        [{ study_id := 4, start_date := 0, progress := 0, last_update := 0 },
         { study_id := 5, start_date := 0, progress := 0, last_update := 0 },
         { study_id := 6, start_date := 0, progress := 0, last_update := 0 }] } }

/-! Equation lemmas characterizing each embedded operation by explicit case
analysis; the claim theorems below are derived from these. -/

namespace RS

theorem join_study_eq (s : Study) (p : Participant) :
    join_study s p =
      if s.is_active = true then
        if s.current_participants < s.max_participants then
          if s.current_participants + 1 < U32_MOD then
            if p.active_studies + 1 < U32_MOD then
              Except.ok
                ({ s with current_participants :=
                            s.current_participants + 1 },
                 { p with active_studies := p.active_studies + 1 })
            else Except.error Err.InvalidParticipantStatus
          else Except.error Err.MaxParticipantsExceeded
        else Except.error Err.StudyFull
      else Except.error Err.StudyInactive := by
  by_cases h1 : s.is_active = true <;>
    by_cases h2 : s.current_participants < s.max_participants <;>
    by_cases h3 : s.current_participants + 1 < U32_MOD <;>
    by_cases h4 : p.active_studies + 1 < U32_MOD <;>
    simp [join_study, Study.can_accept_participants, Study.add_participant,
      Participant.increment_active_studies, ok_or, u32_checked_add, h1, h2,
      h3, h4, bind, Except.bind, pure, Except.pure, throw, throwThe,
      MonadExceptOf.throw]

theorem complete_study_eq (s : Study) (p : Participant) (r : Researcher) :
    complete_study s p r =
      if s.completed_participants + 1 < U32_MOD then
        if p.completed_studies + 1 < U32_MOD then
          if r.total_participants + 1 < U32_MOD then
            Except.ok
              ({ s with completed_participants :=
                          s.completed_participants + 1 },
               { p with completed_studies := p.completed_studies + 1 },
               { r with total_participants := r.total_participants + 1 })
          else Except.error Err.InvalidStudyParameters
        else Except.error Err.InvalidParticipantStatus
      else Except.error Err.InvalidParticipantStatus := by
  by_cases h1 : s.completed_participants + 1 < U32_MOD <;>
    by_cases h2 : p.completed_studies + 1 < U32_MOD <;>
    by_cases h3 : r.total_participants + 1 < U32_MOD <;>
    simp [complete_study, Study.complete_participant,
      Participant.increment_completed_studies,
      Researcher.update_total_participants, ok_or, u32_checked_add, h1, h2,
      h3, bind, Except.bind, pure, Except.pure, throw, throwThe,
      MonadExceptOf.throw]

theorem update_study_status_eq (a : Admin) (s : Study) (authority : Pubkey)
    (st : StudyStatus) :
    update_study_status a s authority st =
      if a.authority = authority then Except.ok { s with status := st }
      else Except.error Err.UnauthorizedAdmin := by
  by_cases h : a.authority = authority <;>
    simp [update_study_status, h, bind, Except.bind, pure, Except.pure,
      throw, throwThe, MonadExceptOf.throw]

theorem is_eligible_for_study_iff (prof : ParticipantProfile) (s : Study) :
    prof.is_eligible_for_study s = true ↔ 10 ≤ prof.reputation_score := by
  simp [ParticipantProfile.is_eligible_for_study]

theorem issue_consent_nft_eq (c : Consent) (s : Study) (p : Participant)
    (v h : String) (now : Int) :
    issue_consent_nft c s p v h now =
      if 10 ≤ p.profile.reputation_score then
        if p.has_active_consent = true then
          Except.error Err.DuplicateConsent
        else
          Except.ok
            ({ c with total_issued := u64_wrap_add c.total_issued 1 }, s,
             { p with has_active_consent := true, consent_issued_at := now,
                      consent_revoked_at := none })
      else Except.error Err.ParticipantNotEligible := by
  by_cases h1 : 10 ≤ p.profile.reputation_score <;>
    by_cases h2 : p.has_active_consent = true <;>
    simp [issue_consent_nft, ParticipantProfile.is_eligible_for_study,
      Participant.update_consent_status, Study.increment_consent, h1, h2,
      bind, Except.bind, pure, Except.pure, throw, throwThe,
      MonadExceptOf.throw]

theorem revoke_consent_eq (c : Consent) (p : Participant) (now : Int) :
    revoke_consent c p now =
      if p.has_active_consent = true then
        Except.ok
          ({ c with total_revoked := u64_wrap_add c.total_revoked 1 },
           { p with has_active_consent := false,
                    consent_revoked_at := some now })
      else Except.error Err.NoActiveConsent := by
  by_cases h : p.has_active_consent = true <;>
    simp [revoke_consent, Participant.update_consent_status, h, bind,
      Except.bind, pure, Except.pure, throw, throwThe, MonadExceptOf.throw]

theorem wallet_add_reward_eq (w : ParticipantWallet) (amount : Nat)
    (now : Int) :
    w.add_reward amount now =
      if w.is_active = true then
        if 0 < amount then
          if w.total_rewards + amount < U64_MOD then
            Except.ok { w with total_rewards := w.total_rewards + amount,
                               last_reward_at := now, last_activity := now }
          else Except.error Err.RewardOverflow
        else Except.error Err.InvalidTokenAmount
      else Except.error Err.InactiveWallet := by
  by_cases h1 : w.is_active = true <;> by_cases h2 : 0 < amount <;>
    by_cases h3 : w.total_rewards + amount < U64_MOD <;>
    simp [ParticipantWallet.add_reward, ok_or, u64_checked_add, h1, h2, h3,
      bind, Except.bind, pure, Except.pure, throw, throwThe,
      MonadExceptOf.throw]

theorem researcher_create_eq (r : Researcher) (authority : Pubkey)
    (institution credentials_hash : String) (now : Int) :
    r.create authority institution credentials_hash now =
      if institution.length > 0 then
        if credentials_hash.length > 0 then
          Except.ok { r with
            authority := authority, institution := institution,
            credentials_hash := credentials_hash, is_verified := false,
            registered_at := now, studies_created := 0, active_studies := 0,
            total_participants := 0, reputation_score := 0 }
        else Except.error Err.InvalidCredentials
      else Except.error Err.InvalidInstitutionName := by
  by_cases h1 : institution.length > 0 <;>
    by_cases h2 : credentials_hash.length > 0 <;>
    simp [Researcher.create, h1, h2, bind, Except.bind, pure, Except.pure,
      throw, throwThe, MonadExceptOf.throw]

end RS

namespace Mono

theorem update_status_legal (s : Study) (st : StudyStatus) (now : Int) :
    (legal_transition s.status st = true →
      s.update_status st now =
        Except.ok { s with status := st, updated_at := now }) ∧
    (legal_transition s.status st = false →
      s.update_status st now = Except.error Err.InvalidStatusTransition) := by
  cases h : s.status <;> cases st <;>
    simp [Study.update_status, legal_transition, h]

theorem verify_researcher_eq (a : Admin) (r : Researcher) (now : Int) :
    a.verify_researcher r now =
      if r.credentials_verified = false then
        Except.ok
          ({ a with
              verified_researchers := u32_wrap_add a.verified_researchers 1,
              pending_verifications :=
                u32_wrap_sub a.pending_verifications 1,
              last_updated := now },
           { r with credentials_verified := true })
      else Except.error Err.AlreadyVerified := by
  by_cases h : r.credentials_verified = false <;>
    simp [Admin.verify_researcher, h, bind, Except.bind, pure, Except.pure,
      throw, throwThe, MonadExceptOf.throw]

theorem mono_add_reward_eq (w : ParticipantWallet) (sid : Pubkey)
    (amount : Nat) (now : Int) :
    w.add_reward sid amount now =
      if 0 < amount then
        if w.is_initialized = true then
          if w.total_earned + amount < U64_MOD then
            Except.ok { w with
              rewards := w.rewards ++
                [{ study_id := sid, amount := amount, timestamp := now }],
              total_earned := w.total_earned + amount,
              last_activity := now,
              transactions := w.transactions ++
                [{ id := reward_tx_id sid,
                   status := TransactionStatus.Completed,
                   timestamp := now }] }
          else Except.error Err.RewardOverflow
        else Except.error Err.WalletNotInitialized
      else Except.error Err.InvalidRewardAmount := by
  by_cases h1 : 0 < amount <;> by_cases h2 : w.is_initialized = true <;>
    by_cases h3 : w.total_earned + amount < U64_MOD <;>
    simp [ParticipantWallet.add_reward, ok_or, u64_checked_add, h1, h2, h3,
      bind, Except.bind, pure, Except.pure, throw, throwThe,
      MonadExceptOf.throw]

end Mono

/-! Claim theorems. -/

/-- C1: (amended) The legal table Draft→PendingReview, PendingReview→Active,
Active→Inactive/Completed/Suspended, Suspended→Active is implemented by the
`Study::update_status` method of `src/lib.rs`, which fails every other pair
with `InvalidStatusTransition`, leaving the status unchanged; the exposed
admin-only handler `update_study_status` of `src/instructions/admin.rs`,
however, only checks the admin authority and then assigns the requested
status unconditionally, never failing `InvalidStatusTransition`. -/
theorem c1_status_transition (s : Mono.Study) (st : Mono.StudyStatus)
    (now : Int) (a : RS.Admin) (rs : RS.Study) (authority : Pubkey)
    (rst : RS.StudyStatus) :
    (Mono.legal_transition s.status st = true →
      s.update_status st now =
        Except.ok { s with status := st, updated_at := now }) ∧
    (Mono.legal_transition s.status st = false →
      s.update_status st now = Except.error Err.InvalidStatusTransition) ∧
    (a.authority = authority →
      RS.update_study_status a rs authority rst =
        Except.ok { rs with status := rst }) := by
  refine ⟨(Mono.update_status_legal s st now).1,
          (Mono.update_status_legal s st now).2, ?_⟩
  intro h
  rw [RS.update_study_status_eq]
  simp [h]

/-- C1 witness: a legal transition (Draft→PendingReview) succeeds, an
illegal one (Draft→Completed) fails `InvalidStatusTransition`, and the
exposed admin handler succeeds when authorized. -/
theorem c1_status_transition_witness :
    ({ mstudy0 with status := Mono.StudyStatus.Draft } : Mono.Study).update_status
        Mono.StudyStatus.PendingReview 5 =
      Except.ok { mstudy0 with
                  status := Mono.StudyStatus.PendingReview
                  updated_at := 5 } ∧
    ({ mstudy0 with status := Mono.StudyStatus.Draft } : Mono.Study).update_status
        Mono.StudyStatus.Completed 5 =
      Except.error Err.InvalidStatusTransition ∧
    RS.update_study_status admin0 study0 1 RS.StudyStatus.Inactive =
      Except.ok { study0 with status := RS.StudyStatus.Inactive } := by
  refine ⟨?_, ?_, ?_⟩
  · exact (c1_status_transition { mstudy0 with status := Mono.StudyStatus.Draft }
      Mono.StudyStatus.PendingReview 5 admin0 study0 1
      RS.StudyStatus.Inactive).1 (by decide)
  · exact (c1_status_transition { mstudy0 with status := Mono.StudyStatus.Draft }
      Mono.StudyStatus.Completed 5 admin0 study0 1
      RS.StudyStatus.Inactive).2.1 (by decide)
  · exact (c1_status_transition mstudy0 Mono.StudyStatus.Active 5 admin0
      study0 1 RS.StudyStatus.Inactive).2.2 rfl

/-- C1 counterexample: (Completed, Active) is outside the legal table, yet
the exposed admin-only status operation succeeds on it and changes the
status, instead of failing `InvalidStatusTransition` with the status
unchanged as the claim states. -/
theorem c1_status_transition_cex :
    Mono.legal_transition Mono.StudyStatus.Completed Mono.StudyStatus.Active
      = false ∧
    RS.update_study_status admin0
        { studyAccepting with status := RS.StudyStatus.Completed } 1
        RS.StudyStatus.Active =
      Except.ok { studyAccepting with status := RS.StudyStatus.Active } := by
  exact ⟨rfl, rfl⟩

/-- C2: (amended) Every study state reachable through the exposed operations
(create, enroll, complete, admin status transition) satisfies
`0 ≤ current_participants ≤ max_participants`; the second claimed
inequality `completed_participants ≤ current_participants` is NOT an
invariant, because `complete_study` increments `completed_participants`
without any enrollment check (see the counterexample). -/
theorem c2_capacity_invariant (s : RS.Study) (h : RS.ReachableStudy s) :
    0 ≤ s.current_participants ∧
    s.current_participants ≤ s.max_participants := by
  refine ⟨Nat.zero_le _, ?_⟩
  induction h with
  | created s0 a t d c ra mp ty now s hc =>
      simp only [RS.Study.create, Except.ok.injEq] at hc
      subst hc
      simp
  | joined s p s' p' hr hj ih =>
      rw [RS.join_study_eq] at hj
      split_ifs at hj with h1 h2 h3 h4; simp_all
      obtain ⟨hs, hp⟩ := hj
      subst hs
      simp
      omega
  | completed s p r s' p' r' hr hc ih =>
      rw [RS.complete_study_eq] at hc
      split_ifs at hc with h1 h2 h3; simp_all
      obtain ⟨hs, hp, hrr⟩ := hc
      subst hs
      simpa using ih
  | status_updated a s authority st s' hr hu ih =>
      rw [RS.update_study_status_eq] at hu
      split_ifs at hu with h1; simp_all
      subst hu
      simpa using ih

/-- C2 witness: the freshly created study is reachable and satisfies the
capacity inequality. -/
theorem c2_capacity_invariant_witness :
    RS.ReachableStudy studyCreated ∧
    0 ≤ studyCreated.current_participants ∧
    studyCreated.current_participants ≤ studyCreated.max_participants := by
  have h : RS.ReachableStudy studyCreated :=
    RS.ReachableStudy.created study0 1 "t" "d" "c" 10 1
      RS.StudyType.Survey 0 studyCreated rfl
  exact ⟨h, c2_capacity_invariant studyCreated h⟩

/-- C2 counterexample: create a study of capacity 1, enroll once, then run
the completion operation twice — every step an exposed operation that
succeeds — reaching a state with `completed_participants = 2` but
`current_participants = 1`, violating the claimed invariant
`completed_participants ≤ current_participants`. -/
theorem c2_capacity_invariant_cex :
    RS.ReachableStudy studyDone2 ∧
    ¬ (studyDone2.completed_participants ≤ studyDone2.current_participants)
    := by
  have h0 : RS.ReachableStudy studyCreated :=
    RS.ReachableStudy.created study0 1 "t" "d" "c" 10 1
      RS.StudyType.Survey 0 studyCreated rfl
  have h1 : RS.ReachableStudy studyJoined :=
    RS.ReachableStudy.joined studyCreated participant0 studyJoined
      { participant0 with active_studies := 1 } h0 rfl
  have h2 : RS.ReachableStudy studyDone1 :=
    RS.ReachableStudy.completed studyJoined participant0 researcher0
      studyDone1 { participant0 with completed_studies := 1 }
      { researcher0 with total_participants := 1 } h1 rfl
  have h3 : RS.ReachableStudy studyDone2 :=
    RS.ReachableStudy.completed studyDone1 participant0 researcher0
      studyDone2 { participant0 with completed_studies := 1 }
      { researcher0 with total_participants := 1 } h2 rfl
  exact ⟨h3, by decide⟩

/-- C3: (amended) Enrollment succeeds if and only if the study's `is_active`
flag is true and `current_participants < max_participants` — the `status`
enum is never consulted — failing `StudyInactive` respectively `StudyFull`
otherwise; on success it increments `study.current_participants` and
`participant.active_studies` by exactly 1. (Hypotheses: the `u32` bound on
`max_participants` and a non-overflowing participant counter, automatic in
the Rust types.) -/
theorem c3_join_study (s : RS.Study) (p : RS.Participant)
    (hmax : s.max_participants < U32_MOD)
    (hp : p.active_studies + 1 < U32_MOD) :
    (RS.join_study s p =
        Except.ok
          ({ s with current_participants := s.current_participants + 1 },
           { p with active_studies := p.active_studies + 1 }) ↔
      (s.is_active = true ∧
       s.current_participants < s.max_participants)) ∧
    (s.is_active = false →
      RS.join_study s p = Except.error Err.StudyInactive) ∧
    (s.is_active = true → s.max_participants ≤ s.current_participants →
      RS.join_study s p = Except.error Err.StudyFull) := by
  rw [RS.join_study_eq]
  refine ⟨?_, ?_, ?_⟩
  · constructor
    · intro h
      by_cases h1 : s.is_active = true
      · by_cases h2 : s.current_participants < s.max_participants
        · exact ⟨h1, h2⟩
        · simp [h1, h2] at h
      · simp [h1] at h
    · rintro ⟨h1, h2⟩
      have h3 : s.current_participants + 1 < U32_MOD := by omega
      simp [h1, h2, h3, hp]
  · intro h1
    simp [h1]
  · intro h1 h2
    simp [h1, h2, Nat.not_lt.mpr h2]

/-- C3 witness: for a study with `max_participants = 2`, two successive
enrollments succeed taking `current_participants` to 1 and then 2, and a
third enrollment fails `StudyFull`; the claimed failure `StudyInactive`
also occurs when the flag is off. -/
theorem c3_join_study_witness :
    RS.join_study studyAccepting participant0 =
      Except.ok ({ studyAccepting with current_participants := 1 },
                 { participant0 with active_studies := 1 }) ∧
    RS.join_study { studyAccepting with current_participants := 1 }
        participant0 =
      Except.ok ({ studyAccepting with current_participants := 2 },
                 { participant0 with active_studies := 1 }) ∧
    RS.join_study { studyAccepting with current_participants := 2 }
        participant0 =
      Except.error Err.StudyFull ∧
    RS.join_study { studyAccepting with is_active := false } participant0 =
      Except.error Err.StudyInactive := by
  refine ⟨?_, ?_, ?_, ?_⟩
  · exact (c3_join_study studyAccepting participant0 (by decide)
      (by decide)).1.mpr (by constructor <;> decide)
  · exact (c3_join_study { studyAccepting with current_participants := 1 }
      participant0 (by decide) (by decide)).1.mpr
      (by constructor <;> decide)
  · exact (c3_join_study { studyAccepting with current_participants := 2 }
      participant0 (by decide) (by decide)).2.2 (by decide) (by decide)
  · exact (c3_join_study { studyAccepting with is_active := false }
      participant0 (by decide) (by decide)).2.1 (by decide)

/-- C3 counterexample: a study whose `status` is `Suspended` (not `Active`)
but whose `is_active` flag is still set — reachable, since the admin status
update never touches the flag — accepts an enrollment, refuting "succeeds
only if the study's status is Active". -/
theorem c3_join_study_cex :
    studySuspendedAccepting.status ≠ RS.StudyStatus.Active ∧
    RS.update_study_status admin0 studyAccepting 1
        RS.StudyStatus.Suspended = Except.ok studySuspendedAccepting ∧
    RS.join_study studySuspendedAccepting participant0 =
      Except.ok
        ({ studySuspendedAccepting with current_participants := 1 },
         { participant0 with active_studies := 1 }) := by
  exact ⟨by decide, rfl, rfl⟩

/-- C10: (amended) The study-side outcome of `join_study` is independent of
the participant record as long as the participant's `active_studies`
counter does not overflow `u32` on increment: any two participants paired
with the same study produce the same study outcome, and in particular the
operation consults no participant field — a banned, suspended, unconsented
or at-cap participant is enrolled whenever the study is accepting. At
`active_studies = u32::MAX` the checked increment fails and the whole
operation errors, the one participant-dependence (see counterexample). -/
theorem c10_join_participant_independent (s : RS.Study)
    (p₁ p₂ q : RS.Participant) (hs : s.max_participants < U32_MOD)
    (h1 : p₁.active_studies + 1 < U32_MOD)
    (h2 : p₂.active_studies + 1 < U32_MOD)
    (hq : q.active_studies + 1 < U32_MOD) :
    RS.join_study_outcome s p₁ = RS.join_study_outcome s p₂ ∧
    (s.is_active = true → s.current_participants < s.max_participants →
      RS.join_study s q =
        Except.ok
          ({ s with current_participants := s.current_participants + 1 },
           { q with active_studies := q.active_studies + 1 })) := by
  constructor
  · unfold RS.join_study_outcome
    rw [RS.join_study_eq, RS.join_study_eq]
    split_ifs with ha hc hof <;> simp [Except.map, h1, h2]
  · intro ha hc
    rw [RS.join_study_eq]
    have hof : s.current_participants + 1 < U32_MOD := by omega
    simp [ha, hc, hof, hq]

/-- C10 witness: a banned, suspended, unconsented participant already at the
supposed cap of 3 active studies is enrolled exactly like a fresh one. -/
theorem c10_join_participant_independent_witness :
    RS.join_study_outcome studyAccepting participant0 =
      RS.join_study_outcome studyAccepting
        { pCap with banned := true, suspended := true } ∧
    RS.join_study studyAccepting
        { pCap with banned := true, suspended := true } =
      Except.ok
        ({ studyAccepting with current_participants := 1 },
         { pCap with banned := true, suspended := true,
                     active_studies := 4 }) := by
  have h := c10_join_participant_independent studyAccepting participant0
    { pCap with banned := true, suspended := true }
    { pCap with banned := true, suspended := true }
    (by decide) (by decide) (by decide) (by decide)
  exact ⟨h.1, h.2 (by decide) (by decide)⟩

/-- C10 counterexample: the enrollment outcome is NOT independent of every
participant field — with the same accepting study, a fresh participant
enrolls while one whose `active_studies` counter is `u32::MAX` makes the
operation fail, so the study-side outcome differs. -/
theorem c10_join_participant_independent_cex :
    RS.join_study_outcome studyAccepting participant0 =
      Except.ok { studyAccepting with current_participants := 1 } ∧
    RS.join_study_outcome studyAccepting pmax =
      Except.error Err.InvalidParticipantStatus ∧
    Except.ok { studyAccepting with current_participants := 1 } ≠
      (Except.error Err.InvalidParticipantStatus :
        Except Err RS.Study) := by
  exact ⟨rfl, rfl, fun h => Except.noConfusion h⟩

/-- C4: For every active (respectively initialized) wallet and every
`amount > 0`, a successful `add_reward` makes the cumulative total equal its
prior value plus `amount`, and the monolithic variant appends exactly one
reward entry of that amount; when the `u64` addition would overflow the
call fails `RewardOverflow` and — the error aborting the transaction — the
wallet keeps its prior state with no entry appended. Proved for both
embedded wallet variants (`src/state/wallet.rs` and `src/wallet.rs`). -/
theorem c4_add_reward (w : RS.ParticipantWallet)
    (m : Mono.ParticipantWallet) (sid : Pubkey) (amt : Nat) (now : Int)
    (hw : w.is_active = true) (hm : m.is_initialized = true)
    (hamt : 0 < amt) :
    (w.total_rewards + amt < U64_MOD →
      w.add_reward amt now =
        Except.ok { w with
          total_rewards := w.total_rewards + amt
          last_reward_at := now
          last_activity := now }) ∧
    (U64_MOD ≤ w.total_rewards + amt →
      w.add_reward amt now = Except.error Err.RewardOverflow) ∧
    (m.total_earned + amt < U64_MOD →
      m.add_reward sid amt now =
        Except.ok { m with
          rewards := m.rewards ++
            [{ study_id := sid, amount := amt, timestamp := now }]
          total_earned := m.total_earned + amt
          last_activity := now
          transactions := m.transactions ++
            [{ id := Mono.reward_tx_id sid
               status := Mono.TransactionStatus.Completed
               timestamp := now }] }) ∧
    (U64_MOD ≤ m.total_earned + amt →
      m.add_reward sid amt now = Except.error Err.RewardOverflow) := by
  refine ⟨?_, ?_, ?_, ?_⟩ <;> intro h
  · rw [RS.wallet_add_reward_eq]
    simp [hw, hamt, h]
  · rw [RS.wallet_add_reward_eq]
    simp [hw, hamt, Nat.not_lt.mpr h]
  · rw [Mono.mono_add_reward_eq]
    simp [hm, hamt, h]
  · rw [Mono.mono_add_reward_eq]
    simp [hm, hamt, Nat.not_lt.mpr h]

/-- C4 witness: the spec scenario — a wallet at total 0 receives 50 (total
becomes 50, one entry in the monolithic variant); adding `u64::MAX` to a
total of 50 fails `RewardOverflow`. -/
theorem c4_add_reward_witness :
    wallet0.add_reward 50 1 =
      Except.ok { wallet0 with
        total_rewards := 50
        last_reward_at := 1
        last_activity := 1 } ∧
    ({ wallet0 with total_rewards := 50 } :
        RS.ParticipantWallet).add_reward (U64_MOD - 1) 2 =
      Except.error Err.RewardOverflow ∧
    mwallet0.add_reward 4 50 1 =
      Except.ok { mwallet0 with
        rewards := [{ study_id := 4, amount := 50, timestamp := 1 }]
        total_earned := 50
        last_activity := 1
        transactions := [{ id := Mono.reward_tx_id 4
                           status := Mono.TransactionStatus.Completed
                           timestamp := 1 }] } ∧
    ({ mwallet0 with total_earned := 50 } :
        Mono.ParticipantWallet).add_reward 4 (U64_MOD - 1) 2 =
      Except.error Err.RewardOverflow := by
  refine ⟨?_, ?_, ?_, ?_⟩
  · exact (c4_add_reward wallet0 mwallet0 4 50 1 rfl rfl
      (by decide)).1 (by decide)
  · exact (c4_add_reward { wallet0 with total_rewards := 50 } mwallet0 4
      (U64_MOD - 1) 2 rfl rfl (by decide)).2.1 (by decide)
  · exact (c4_add_reward wallet0 mwallet0 4 50 1 rfl rfl
      (by decide)).2.2.1 (by decide)
  · exact (c4_add_reward wallet0 { mwallet0 with total_earned := 50 } 4
      (U64_MOD - 1) 2 rfl rfl (by decide)).2.2.2 (by decide)

/-- C5: (amended) After a successful consent revocation a second revocation
fails `NoActiveConsent`; issuing consent while
`has_active_consent == true` fails `DuplicateConsent` PROVIDED the
participant passes the eligibility check (`reputation_score ≥ 10`) — the
eligibility check runs first, so an ineligible already-consented
participant fails `ParticipantNotEligible` instead (see counterexample).
In every failure case the error aborts the transaction, so no state is
mutated. -/
theorem c5_consent_errors :
    (∀ (c : RS.Consent) (p : RS.Participant) (now now' : Int)
       (c' : RS.Consent) (p' : RS.Participant),
       RS.revoke_consent c p now = Except.ok (c', p') →
       RS.revoke_consent c' p' now' = Except.error Err.NoActiveConsent) ∧
    (∀ (c : RS.Consent) (s : RS.Study) (p : RS.Participant)
       (v h : String) (now : Int),
       p.has_active_consent = true → 10 ≤ p.profile.reputation_score →
       RS.issue_consent_nft c s p v h now =
         Except.error Err.DuplicateConsent) := by
  constructor
  · intro c p now now' c' p' hok
    rw [RS.revoke_consent_eq] at hok
    split_ifs at hok with hact
    simp only [Except.ok.injEq, Prod.mk.injEq] at hok
    obtain ⟨hc, hp⟩ := hok
    rw [RS.revoke_consent_eq]
    rw [← hp]
    simp
  · intro c s p v h now h1 h2
    rw [RS.issue_consent_nft_eq]
    simp [h1, h2]

/-- C5 witness: a consented, eligible participant — revocation succeeds
once, a second revocation fails `NoActiveConsent`, and re-issuance while
still consented fails `DuplicateConsent`. -/
theorem c5_consent_errors_witness :
    RS.revoke_consent consent0 pCons 1 =
      Except.ok ({ consent0 with total_revoked := 1 },
                 { pCons with
                   has_active_consent := false
                   consent_revoked_at := some 1 }) ∧
    RS.revoke_consent { consent0 with total_revoked := 1 }
        { pCons with
          has_active_consent := false
          consent_revoked_at := some 1 } 2 =
      Except.error Err.NoActiveConsent ∧
    RS.issue_consent_nft consent0 studyAccepting pCons "" "" 3 =
      Except.error Err.DuplicateConsent := by
  refine ⟨rfl, ?_, ?_⟩
  · exact c5_consent_errors.1 consent0 pCons 1 2 _ _ rfl
  · exact c5_consent_errors.2 consent0 studyAccepting pCons "" "" 3 rfl
      (by decide)

/-- C5 counterexample: an already-consented participant who fails the
(hard-coded) reputation threshold: issuing consent fails with
`ParticipantNotEligible`, not `DuplicateConsent` as the claim states. -/
theorem c5_consent_errors_cex :
    pConsBadRep.has_active_consent = true ∧
    RS.issue_consent_nft consent0 studyAccepting pConsBadRep "" "" 0 =
      Except.error Err.ParticipantNotEligible ∧
    Err.ParticipantNotEligible ≠ Err.DuplicateConsent := by
  exact ⟨rfl, rfl, by decide⟩

/-- C6: (amended) The eligibility predicate of the modular layout ignores
prior study records and the active-study cap entirely: it returns true if
and only if `reputation_score ≥ 10` (a hard-coded constant, not a
per-study threshold); consequently consent issuance succeeds for any
participant without active consent whose reputation is at least 10,
regardless of `active_studies`. -/
theorem c6_eligibility :
    (∀ (prof : RS.ParticipantProfile) (s : RS.Study),
       prof.is_eligible_for_study s = true ↔
         10 ≤ prof.reputation_score) ∧
    (∀ (c : RS.Consent) (s : RS.Study) (p : RS.Participant)
       (v h : String) (now : Int),
       p.has_active_consent = false → 10 ≤ p.profile.reputation_score →
       RS.issue_consent_nft c s p v h now =
         Except.ok
           ({ c with total_issued := u64_wrap_add c.total_issued 1 }, s,
            { p with
              has_active_consent := true
              consent_issued_at := now
              consent_revoked_at := none })) := by
  constructor
  · exact RS.is_eligible_for_study_iff
  · intro c s p v h now h1 h2
    rw [RS.issue_consent_nft_eq]
    simp [h1, h2]

/-- C6 witness: a participant at the supposed hard cap (counter 3, three
open profile records, one of them for the study at hand) with reputation
exactly 10 is judged eligible and consent issuance succeeds. -/
theorem c6_eligibility_witness :
    pCap.profile.is_eligible_for_study studyAccepting = true ∧
    RS.issue_consent_nft consent0 studyAccepting pCap "" "" 7 =
      Except.ok
        ({ consent0 with total_issued := 1 }, studyAccepting,
         { pCap with
           has_active_consent := true
           consent_issued_at := 7
           consent_revoked_at := none }) := by
  constructor
  · exact (c6_eligibility.1 pCap.profile studyAccepting).mpr (by decide)
  · exact c6_eligibility.2 consent0 studyAccepting pCap "" "" 7 rfl
      (by decide)

/-- C6 counterexample: the claim requires eligibility to be false at
`active_studies = 3` (hard cap) and when a prior record references the
study; `pCap` violates both conditions yet the predicate returns true, and
consent issuance proceeds to set `has_active_consent` rather than failing
before any mutation. -/
theorem c6_eligibility_cex :
    pCap.active_studies = 3 ∧
    pCap.profile.active_studies.length = 3 ∧
    RS.ParticipantProfile.is_eligible_for_study pCap.profile
      studyAccepting = true ∧
    (RS.issue_consent_nft consent0 studyAccepting pCap "" "" 0).map
        (fun t => t.2.2.has_active_consent) = Except.ok true := by
  exact ⟨rfl, rfl, rfl, rfl⟩

/-- C7: (amended) The completion operation of the modular layout increments
`study.completed_participants`, `participant.completed_studies` and
`researcher.total_participants` by exactly one each; it leaves
`participant.active_studies` unchanged (the claimed decrement does not
happen) and requires no existing enrollment. (Hypotheses: the three `u32`
counters do not overflow.) -/
theorem c7_complete_study (s : RS.Study) (p : RS.Participant)
    (r : RS.Researcher) (h1 : s.completed_participants + 1 < U32_MOD)
    (h2 : p.completed_studies + 1 < U32_MOD)
    (h3 : r.total_participants + 1 < U32_MOD) :
    RS.complete_study s p r =
      Except.ok
        ({ s with completed_participants := s.completed_participants + 1 },
         { p with completed_studies := p.completed_studies + 1 },
         { r with total_participants := r.total_participants + 1 }) ∧
    ({ p with completed_studies := p.completed_studies + 1 } :
        RS.Participant).active_studies = p.active_studies := by
  refine ⟨?_, rfl⟩
  rw [RS.complete_study_eq]
  simp [h1, h2, h3]

/-- C7 witness: completing an enrolled participant bumps the three counters
and leaves the active-studies counter at its prior value 1. -/
theorem c7_complete_study_witness :
    RS.complete_study studyJoined
        { participant0 with active_studies := 1 } researcher0 =
      Except.ok
        (studyDone1,
         { participant0 with active_studies := 1, completed_studies := 1 },
         { researcher0 with total_participants := 1 }) := by
  exact (c7_complete_study studyJoined
    { participant0 with active_studies := 1 } researcher0
    (by decide) (by decide) (by decide)).1

/-- C7 counterexample: for a participant with `active_studies = 1` the
claim demands the completion operation decrement it to 0; the operation
succeeds but leaves it at 1. -/
theorem c7_complete_study_cex :
    (RS.complete_study studyJoined
        { participant0 with active_studies := 1 } researcher0).map
      (fun t => t.2.1.active_studies) = Except.ok 1 ∧
    (1 : Nat) ≠ 1 - 1 := by
  exact ⟨rfl, by decide⟩

/-- C8: (amended) The counter mutations of the modular state modules use
overflow/underflow-checked arithmetic that surfaces a specific error
(`InvalidParticipantStatus`, `InvalidStudyParameters`, `RewardOverflow`);
however `Admin::verify_researcher` in the monolithic `src/admin.rs` mutates
the verification counters with unchecked `+= / -=` that wraps silently
(never erroring), and `Researcher::update_active_studies` computes its
reputation update with an unchecked `u32` addition that wraps. -/
theorem c8_checked_arithmetic :
    (∀ p : RS.Participant, p.active_studies = U32_MOD - 1 →
       p.increment_active_studies =
         Except.error Err.InvalidParticipantStatus) ∧
    (∀ s : RS.Study, s.completed_participants = U32_MOD - 1 →
       s.complete_participant =
         Except.error Err.InvalidParticipantStatus) ∧
    (∀ r : RS.Researcher, r.total_participants = U32_MOD - 1 →
       r.update_total_participants 1 =
         Except.error Err.InvalidStudyParameters) ∧
    (∀ (w : RS.ParticipantWallet) (amt : Nat) (now : Int),
       w.is_active = true → 0 < amt → U64_MOD ≤ w.total_rewards + amt →
       w.add_reward amt now = Except.error Err.RewardOverflow) ∧
    (∀ (a : Mono.Admin) (r : Mono.Researcher) (now : Int),
       r.credentials_verified = false →
       a.verify_researcher r now =
         Except.ok
           ({ a with
              verified_researchers :=
                u32_wrap_add a.verified_researchers 1
              pending_verifications :=
                u32_wrap_sub a.pending_verifications 1
              last_updated := now },
            { r with credentials_verified := true })) ∧
    (∀ r : RS.Researcher, r.is_verified = true →
       r.active_studies + 1 < U32_MOD →
       r.update_active_studies 1 =
         Except.ok { r with
           active_studies := r.active_studies + 1
           reputation_score := u32_wrap_add r.reputation_score 10 }) := by
  have hno32 : ¬ ((U32_MOD - 1) + 1 < U32_MOD) := by decide
  refine ⟨?_, ?_, ?_, ?_, ?_, ?_⟩
  · intro p hp
    simp [RS.Participant.increment_active_studies, ok_or, u32_checked_add,
      hp, hno32]
  · intro s hs
    simp [RS.Study.complete_participant, ok_or, u32_checked_add, hs, hno32]
  · intro r hr
    simp [RS.Researcher.update_total_participants, ok_or, u32_checked_add,
      hr, hno32, bind, Except.bind, pure, Except.pure]
  · intro w amt now hw hamt h
    rw [RS.wallet_add_reward_eq]
    simp [hw, hamt, Nat.not_lt.mpr h]
  · intro a r now hr
    rw [Mono.verify_researcher_eq]
    simp [hr]
  · intro r hv hb
    simp [RS.Researcher.update_active_studies,
      RS.Researcher.update_reputation_score, ok_or, u32_checked_add, hv, hb,
      bind, Except.bind, pure, Except.pure]

/-- C8 witness: each checked mutation errors at its `u32`/`u64` boundary; the
admin verification counters move by wrapping arithmetic (here without
wrap-around: pending 5 becomes 4), and a near-`u32::MAX` reputation wraps
to 4 under the unchecked `+ 10`. -/
theorem c8_checked_arithmetic_witness :
    pmax.increment_active_studies =
      Except.error Err.InvalidParticipantStatus ∧
    ({ studyAccepting with completed_participants := U32_MOD - 1 } :
        RS.Study).complete_participant =
      Except.error Err.InvalidParticipantStatus ∧
    ({ researcher0 with total_participants := U32_MOD - 1 } :
        RS.Researcher).update_total_participants 1 =
      Except.error Err.InvalidStudyParameters ∧
    ({ wallet0 with total_rewards := 50 } :
        RS.ParticipantWallet).add_reward (U64_MOD - 1) 9 =
      Except.error Err.RewardOverflow ∧
    ({ madmin0 with pending_verifications := 5 } :
        Mono.Admin).verify_researcher mresearcher0 3 =
      Except.ok
        ({ madmin0 with
           verified_researchers := 1
           pending_verifications := 4
           last_updated := 3 },
         { mresearcher0 with credentials_verified := true }) ∧
    ({ researcher0 with
       is_verified := true
       reputation_score := 4294967290 } :
        RS.Researcher).update_active_studies 1 =
      Except.ok { researcher0 with
        is_verified := true
        active_studies := 1
        reputation_score := 4 } := by
  refine ⟨?_, ?_, ?_, ?_, ?_, ?_⟩
  · exact c8_checked_arithmetic.1 pmax rfl
  · exact c8_checked_arithmetic.2.1 _ rfl
  · exact c8_checked_arithmetic.2.2.1 _ rfl
  · exact c8_checked_arithmetic.2.2.2.1 _ (U64_MOD - 1) 9 rfl (by decide)
      (by decide)
  · exact c8_checked_arithmetic.2.2.2.2.1 _ mresearcher0 3 rfl
  · exact c8_checked_arithmetic.2.2.2.2.2 _ rfl (by decide)

/-- C8 counterexample: with `pending_verifications = 0`, the admin
verification operation succeeds and the unchecked `-= 1` silently wraps
the counter to `u32::MAX = 4294967295` instead of surfacing an
underflow error, refuting "never wrapping silently". -/
theorem c8_checked_arithmetic_cex :
    madmin0.pending_verifications = 0 ∧
    madmin0.verify_researcher mresearcher0 7 =
      Except.ok
        ({ madmin0 with
           verified_researchers := 1
           pending_verifications := 4294967295
           last_updated := 7 },
         { mresearcher0 with credentials_verified := true }) ∧
    (4294967295 : Nat) = U32_MOD - 1 := by
  exact ⟨rfl, rfl, rfl⟩

/-- C9: (amended) The `Researcher::create` method validates: an empty
institution fails `InvalidInstitutionName` (this check runs first, so it
also wins when both strings are empty), then an empty credentials hash
fails `InvalidCredentials`, and any non-empty pair succeeds with
`is_verified = false`; the exposed `register_researcher` handler, however,
performs no validation at all — it assigns the fields verbatim (empty or
not) and always succeeds with `is_verified = false`. -/
theorem c9_register_researcher :
    (∀ (r : RS.Researcher) (auth : Pubkey) (inst cred : String)
       (now : Int), inst.length = 0 →
       r.create auth inst cred now =
         Except.error Err.InvalidInstitutionName) ∧
    (∀ (r : RS.Researcher) (auth : Pubkey) (inst cred : String)
       (now : Int), 0 < inst.length → cred.length = 0 →
       r.create auth inst cred now =
         Except.error Err.InvalidCredentials) ∧
    (∀ (r : RS.Researcher) (auth : Pubkey) (inst cred : String)
       (now : Int), 0 < inst.length → 0 < cred.length →
       r.create auth inst cred now =
         Except.ok { r with
           authority := auth
           institution := inst
           credentials_hash := cred
           is_verified := false
           registered_at := now
           studies_created := 0
           active_studies := 0
           total_participants := 0
           reputation_score := 0 }) ∧
    (∀ (r : RS.Researcher) (auth : Pubkey) (inst cred : String)
       (now : Int),
       RS.register_researcher r auth inst cred now =
         Except.ok { r with
           authority := auth
           institution := inst
           credentials_hash := cred
           is_verified := false
           registered_at := now }) := by
  refine ⟨?_, ?_, ?_, ?_⟩
  · intro r auth inst cred now h
    rw [RS.researcher_create_eq]
    simp [h]
  · intro r auth inst cred now h1 h2
    rw [RS.researcher_create_eq]
    simp [h1, h2]
  · intro r auth inst cred now h1 h2
    rw [RS.researcher_create_eq]
    simp [h1, h2]
  · intro r auth inst cred now
    rfl

/-- C9 witness: the spec scenario against `Researcher::create` — empty
institution fails `InvalidInstitutionName`; institution "MIT" with
credentials hash "abc" succeeds with `is_verified = false` (and an empty
credentials hash with non-empty institution fails `InvalidCredentials`). -/
theorem c9_register_researcher_witness :
    researcher0.create 3 "" "abc" 0 =
      Except.error Err.InvalidInstitutionName ∧
    researcher0.create 3 "MIT" "" 0 =
      Except.error Err.InvalidCredentials ∧
    researcher0.create 3 "MIT" "abc" 0 =
      Except.ok { researcher0 with
        institution := "MIT"
        credentials_hash := "abc"
        is_verified := false } := by
  refine ⟨?_, ?_, ?_⟩
  · exact c9_register_researcher.1 researcher0 3 "" "abc" 0 rfl
  · exact c9_register_researcher.2.1 researcher0 3 "MIT" "" 0
      (by decide) rfl
  · exact c9_register_researcher.2.2.1 researcher0 3 "MIT" "abc" 0
      (by decide) (by decide)

/-- C9 counterexample: the exposed registration handler accepts an empty
institution (and empty credentials hash) and succeeds, instead of failing
`InvalidInstitutionName` as the claim states for every empty institution. -/
theorem c9_register_researcher_cex :
    ("" : String).length = 0 ∧
    RS.register_researcher researcher0 9 "" "" 5 =
      Except.ok { researcher0 with authority := 9, registered_at := 5 } := by
  exact ⟨rfl, rfl⟩

end RecruSearch
